import Mathlib

/-!
Shallow embedding of src/parsers/NZ.py (electricitymaps-contrib, NZ parser).

The transport layer (HTTP) is external: each embedded operation receives the
already-decoded payload that the Python code obtains from the network.
Python numbers are modelled as exact rationals, datetimes as UTC epoch
seconds (an integer), and Python exceptions as constructors of an error
type named after the exception classes the interpreter raises.
-/

namespace NZ

/-- Python exceptions that src/parsers/NZ.py can raise, named after the
concrete exception classes.  The design spec gives them abstract names:
NotImplementedError realises UnsupportedOperationError, ValueError (from
strptime) realises TimestampFormatError, NameError (variable never
assigned) realises ExtractionError, JSONDecodeError realises
MalformedPayloadError, KeyError realises UnknownRegionError.  No exception
in the code realises the spec's NoDataError. -/
inductive Err where
  | notImplementedError
  | zeroDivisionError
  | valueError
  | keyError
  | nameError
  | jsonDecodeError
  | indexError
deriving DecidableEq

/-- A JSON leaf value appearing in the production payload: a number or null. -/
inductive JVal where
  | null
  | num (q : ℚ)
deriving DecidableEq

/-! ## Timestamp handling

Line 81 of NZ.py:
  datetime.strptime(time, "%Y-%m-%dT%H:%M:%SZ").replace(tzinfo=timezone.utc)
CPython strptime compiles the format to a regex (module _strptime,
IGNORECASE): %Y is exactly four digits, %m is 1[0-2]|0[1-9]|[1-9],
%d is 3[01]|[12]\d|0[1-9]|[1-9], %H is 2[0-3]|[0-1]\d|\d,
%M is [0-5]\d|\d, %S is 6[0-1]|[0-5]\d|\d; the regex must consume the
whole string, and the datetime constructor then validates the field
ranges (year at least 1, day within the month, seconds at most 59).
A two-digit branch is tried before the one-digit branch; since every
field is followed by a non-digit literal, the greedy choice is exact. -/

/-- Numeric value of a decimal digit character. -/
def dv (c : Char) : ℕ := c.toNat - 48

/-- Parse exactly four digits (the %Y directive). -/
def parse_year4 : List Char → Option (ℕ × List Char)
  | a :: b :: c :: d :: rest =>
    if a.isDigit && b.isDigit && c.isDigit && d.isDigit then
      some (dv a * 1000 + dv b * 100 + dv c * 10 + dv d, rest)
    else none
  | _ => none

/-- Parse a numeric field as two digits when the two-digit value lies in
[lo2, hi2] (the union of the two-digit regex branches), else as one digit
when its value is at least lo1 (the one-digit branch). -/
def parse_num2 (lo2 hi2 lo1 : ℕ) : List Char → Option (ℕ × List Char)
  | a :: b :: rest =>
    if a.isDigit && b.isDigit
        && decide (lo2 ≤ dv a * 10 + dv b ∧ dv a * 10 + dv b ≤ hi2) then
      some (dv a * 10 + dv b, rest)
    else if a.isDigit && decide (lo1 ≤ dv a) then some (dv a, b :: rest)
    else none
  | [a] => if a.isDigit && decide (lo1 ≤ dv a) then some (dv a, []) else none
  | [] => none

/-- Consume one expected literal character. -/
def expect_char (c : Char) : List Char → Option (List Char)
  | x :: rest => if x = c then some rest else none
  | [] => none

/-- Consume a literal letter case-insensitively (strptime compiles its
regex with IGNORECASE, so the format letters T and Z also match t and z). -/
def expect_ci (c c2 : Char) : List Char → Option (List Char)
  | x :: rest => if x = c || x = c2 then some rest else none
  | [] => none

/-- Gregorian leap-year test. -/
def is_leap (y : ℕ) : Bool := (y % 4 = 0 && y % 100 ≠ 0) || y % 400 = 0

/-- Number of days in a month (as validated by the datetime constructor). -/
def days_in_month (y m : ℕ) : ℕ :=
  if m = 2 then (if is_leap y then 29 else 28)
  else if m = 4 ∨ m = 6 ∨ m = 9 ∨ m = 11 then 30
  else 31

/-- Days from 1970-01-01 to the given civil date (proleptic Gregorian). -/
def days_from_civil (y m d : ℕ) : ℤ :=
  let yy : ℤ := (y : ℤ) - (if m ≤ 2 then 1 else 0)
  let era : ℤ := yy / 400
  let yoe : ℤ := yy - era * 400
  let mp : ℤ := (m : ℤ) + (if 2 < m then -3 else 9)
  let doy : ℤ := (153 * mp + 2) / 5 + (d : ℤ) - 1
  let doe : ℤ := yoe * 365 + yoe / 4 - yoe / 100 + doy
  era * 146097 + doe - 719468

/-- datetime.strptime(s, "%Y-%m-%dT%H:%M:%SZ").replace(tzinfo=timezone.utc),
returned as UTC epoch seconds; none models the ValueError strptime or the
datetime constructor raises. -/
def strptime_iso (s : String) : Option ℤ := do
  let (y, r1) ← parse_year4 s.data
  let r2 ← expect_char '-' r1
  let (mo, r3) ← parse_num2 1 12 1 r2
  let r4 ← expect_char '-' r3
  let (d, r5) ← parse_num2 1 31 1 r4
  let r6 ← expect_ci 'T' 't' r5
  let (h, r7) ← parse_num2 0 23 0 r6
  let r8 ← expect_char ':' r7
  let (mi, r9) ← parse_num2 0 59 0 r8
  let r10 ← expect_char ':' r9
  let (sec, r11) ← parse_num2 0 61 0 r10
  let r12 ← expect_ci 'Z' 'z' r11
  if r12 = [] ∧ 1 ≤ y ∧ d ≤ days_in_month y mo ∧ sec ≤ 59 then
    some (days_from_civil y mo d * 86400 + (h : ℤ) * 3600 + (mi : ℤ) * 60 + (sec : ℤ))
  else none

/-- datetime.fromtimestamp(t, tz=timezone.utc) on an epoch-seconds integer:
the same UTC instant, represented as epoch seconds. -/
def datetime_fromtimestamp (t : ℤ) : ℤ := t

/-! ## fetch_price (NZ.py lines 43-99) -/

/-- NZ_PRICE_REGIONS = set(range(1, 14)). -/
def NZ_PRICE_REGIONS : List ℤ := (List.range 13).map (fun (n : ℕ) => (n : ℤ) + 1)

/-- One element of the price payload's items array.  The price arrives as a
numeric string and is immediately converted by float(); it is modelled as
the exact rational it denotes. -/
structure PriceItem where
  grid_zone_id : ℤ
  timestamp : String
  price : ℚ
deriving DecidableEq

/-- The dict returned by fetch_price. -/
structure PriceRecord where
  datetime : ℤ
  price : ℚ
  currency : String
  source : String
  zoneKey : String
deriving DecidableEq

/-- The filter condition of the loop: region in NZ_PRICE_REGIONS. -/
def valid_region (item : PriceItem) : Bool :=
  decide (item.grid_zone_id ∈ NZ_PRICE_REGIONS)

/-- The loop of fetch_price (lines 72-77): the accumulated region_prices
list together with the current value of the variable time (none while it
is still unassigned). -/
def price_loop : List PriceItem → List ℚ × Option String → List ℚ × Option String
  | [], acc => acc
  | item :: rest, (region_prices, time) =>
    if valid_region item then
      price_loop rest (region_prices ++ [item.price], some item.timestamp)
    else
      price_loop rest (region_prices, time)

/-- fetch_price, given the decoded items array of the price endpoint
response.  target_datetime is a datetime in the Python code; every
datetime object is truthy, so only its presence matters. -/
def fetch_price (target_datetime : Option ℤ) (items : List PriceItem)
    (zone_key : String) : Except Err PriceRecord :=
  if target_datetime.isSome then .error .notImplementedError
  else
    match price_loop items ([], none) with
    | (region_prices, time) =>
      if region_prices.length = 0 then .error .zeroDivisionError
      else
        let avg_price : ℚ := region_prices.sum / (region_prices.length : ℚ)
        match time with
        | none => .error .nameError
        | some t =>
          match strptime_iso t with
          | none => .error .valueError
          | some date_time =>
            .ok { datetime := date_time, price := avg_price,
                  currency := "NZD", source := "api.em6.co.nz",
                  zoneKey := zone_key }

/-! ## fetch (NZ.py lines 25-40): HTML-embedded JSON extraction -/

/-- A script element of the parsed HTML document: its attributes and the
list of its child strings (item.contents). -/
structure ScriptTag where
  attrs : List (String × String)
  contents : List String

/-- Python dict.get(k): first binding of k, none when absent. -/
def dict_get {α : Type} : List (String × α) → String → Option α
  | [], _ => none
  | (k2, v) :: rest, k => if k2 = k then some v else dict_get rest k

/-- The loop condition item.attrs.get("data-drupal-selector"): the
attribute must be present and truthy (a nonempty string). -/
def has_selector (item : ScriptTag) : Bool :=
  match dict_get item.attrs "data-drupal-selector" with
  | some v => v ≠ ""
  | none => false

/-- The loop of fetch (lines 36-39), parameterised over json.loads
(an external library function); the Option argument is the current value
of the variable obj, none while it is still unassigned. -/
def fetch_loop {α : Type} (loads : String → Option α) :
    List ScriptTag → Option α → Except Err (Option α)
  | [], obj => .ok obj
  | item :: rest, obj =>
    if has_selector item then
      match item.contents.head? with
      | none => .error .indexError
      | some body =>
        match loads body with
        | none => .error .jsonDecodeError
        | some j => fetch_loop loads rest (some j)
    else fetch_loop loads rest obj

/-- fetch, given the script elements of the fetched document in document
order.  Returning with obj still unassigned raises NameError, the
failure the spec names ExtractionError. -/
def fetch {α : Type} (loads : String → Option α) (scripts : List ScriptTag) :
    Except Err α :=
  match fetch_loop loads scripts none with
  | .ok none => .error .nameError
  | .ok (some j) => .ok j
  | .error e => .error e

/-! ## fetch_production (NZ.py lines 102-167) -/

/-- A category entry of the production payload: the inner dict holding
the keys generation and capacity (either may be missing or null). -/
abbrev CatEntry := List (String × JVal)

/-- The per-region mapping obj["soPgenGraph"]["data"][region]. -/
abbrev RegionData := List (String × CatEntry)

/-- The part of the decoded payload that fetch_production reads:
obj["soPgenGraph"] with its timestamp (epoch seconds) and data. -/
structure SoPgenGraph where
  timestamp : ℤ
  data : List (String × RegionData)

/-- The dict returned by fetch_production. -/
structure ProductionData where
  zoneKey : String
  datetime : ℤ
  production : List (String × JVal)
  capacity : List (String × JVal)
  storage : List (String × JVal)
  source : String

/-- Python d[k]: KeyError when the key is absent. -/
def dict_index {α : Type} (d : List (String × α)) (k : String) : Except Err α :=
  match dict_get d k with
  | some v => .ok v
  | none => .error .keyError

/-- productions.get(cat, default-singleton-dict)[field], the lookup pattern of
lines 135-162: when cat is absent the default dict binds field to None. -/
def prod_field (productions : RegionData) (cat fld : String) : Except Err JVal :=
  dict_index ((dict_get productions cat).getD [(fld, JVal.null)]) fld

/-- fetch_production, given the embedded JSON object already extracted by
fetch (the transport and extraction steps are the external collaborator). -/
def fetch_production (target_datetime : Option ℤ) (obj : SoPgenGraph)
    (zone_key : String) : Except Err ProductionData :=
  if target_datetime.isSome then .error .notImplementedError
  else
    let date_time := datetime_fromtimestamp obj.timestamp
    do
    let productions ← dict_index obj.data "New Zealand"
    let coal_g ← prod_field productions "Coal" "generation"
    let oil_g ← prod_field productions "Diesel/Oil" "generation"
    let gas_g ← prod_field productions "Gas" "generation"
    let geothermal_g ← prod_field productions "Geothermal" "generation"
    let wind_g ← prod_field productions "Wind" "generation"
    let hydro_g ← prod_field productions "Hydro" "generation"
    let solar_g ← prod_field productions "Solar" "generation"
    let cogen_g ← prod_field productions "Co-Gen" "generation"
    let coal_c ← prod_field productions "Coal" "capacity"
    let oil_c ← prod_field productions "Diesel/Oil" "capacity"
    let gas_c ← prod_field productions "Gas" "capacity"
    let geothermal_c ← prod_field productions "Geothermal" "capacity"
    let wind_c ← prod_field productions "Wind" "capacity"
    let hydro_c ← prod_field productions "Hydro" "capacity"
    let solar_c ← prod_field productions "Solar" "capacity"
    let battery_c ← prod_field productions "Battery" "capacity"
    let cogen_c ← prod_field productions "Co-Gen" "capacity"
    let battery_g ← prod_field productions "Battery" "generation"
    pure
      { zoneKey := zone_key
        datetime := date_time
        production :=
          [("coal", coal_g), ("oil", oil_g), ("gas", gas_g),
           ("geothermal", geothermal_g), ("wind", wind_g), ("hydro", hydro_g),
           ("solar", solar_g), ("unknown", cogen_g), ("nuclear", JVal.num 0)]
        capacity :=
          [("coal", coal_c), ("oil", oil_c), ("gas", gas_c),
           ("geothermal", geothermal_c), ("wind", wind_c), ("hydro", hydro_c),
           ("solar", solar_c), ("battery storage", battery_c),
           ("unknown", cogen_c), ("nuclear", JVal.num 0)]
        storage := [("battery", battery_g)]
        source := "transpower.co.nz" }

/-- The (output name, provider name) pairs of the production mapping, in
the order of the dict literal at lines 134-146 of NZ.py. -/
def production_categories : List (String × String) :=
  [("coal", "Coal"), ("oil", "Diesel/Oil"), ("gas", "Gas"),
   ("geothermal", "Geothermal"), ("wind", "Wind"), ("hydro", "Hydro"),
   ("solar", "Solar"), ("unknown", "Co-Gen")]

/-- The (output name, provider name) pairs of the capacity mapping
(lines 147-160 of NZ.py): the production ones plus battery storage. -/
def capacity_categories : List (String × String) :=
  production_categories ++ [("battery storage", "Battery")]

/-! ## Lemmas about fetch_price -/

/-- getLast? of a cons, phrased through Option.or. -/
lemma getLast_cons_or {α : Type} (a : α) (l : List α) :
    (a :: l).getLast? = l.getLast?.or (some a) := by
  cases l with
  | nil => rfl
  | cons b l2 =>
    rw [List.getLast?_cons_cons]
    cases hx : (b :: l2).getLast? with
    | none => simp at hx
    | some y => simp

lemma price_loop_spec (l : List PriceItem) (acc : List ℚ) (t : Option String) :
    price_loop l (acc, t) =
      (acc ++ (l.filter valid_region).map PriceItem.price,
        ((l.filter valid_region).getLast?.map PriceItem.timestamp).or t) := by
  induction l generalizing acc t with
  | nil => simp [price_loop]
  | cons i rest ih =>
    by_cases hv : valid_region i
    · rw [price_loop, if_pos hv, ih]
      simp only [Prod.mk.injEq]
      refine ⟨by simp [List.filter_cons, hv, List.append_assoc], ?_⟩
      simp only [List.filter_cons, hv, if_true]
      rw [getLast_cons_or]
      cases hx : (rest.filter valid_region).getLast? <;> simp
    · rw [price_loop, if_neg hv, ih]
      simp [List.filter_cons, hv]

/-- Inversion of a successful fetch_price run: the returned price is the
mean over the valid-region items and the datetime comes from the last
valid-region item's timestamp. -/
lemma fetch_price_ok_inv (items : List PriceItem) (zk : String) (r : PriceRecord)
    (h : fetch_price none items zk = .ok r) :
    ∃ i, (items.filter valid_region).getLast? = some i ∧
      strptime_iso i.timestamp = some r.datetime ∧
      r.price = ((items.filter valid_region).map PriceItem.price).sum /
        ((items.filter valid_region).length : ℚ) ∧
      r.currency = "NZD" ∧ r.source = "api.em6.co.nz" ∧ r.zoneKey = zk := by
  rw [fetch_price] at h
  simp only [Option.isSome_none, Bool.false_eq_true, if_false, price_loop_spec,
    List.nil_append, Option.or_none] at h
  cases hL : (items.filter valid_region).getLast? with
  | none =>
    rw [List.getLast?_eq_none_iff] at hL
    simp [hL] at h
  | some i =>
    rw [hL] at h
    have hne : items.filter valid_region ≠ [] := by
      intro hnil
      rw [hnil] at hL
      simp at hL
    simp only [List.length_map, Option.map_some'] at h
    rw [if_neg (by simpa [List.length_eq_zero] using hne)] at h
    cases hS : strptime_iso i.timestamp with
    | none => rw [hS] at h; simp at h
    | some dt =>
      rw [hS] at h
      simp only [Except.ok.injEq] at h
      subst h
      exact ⟨i, rfl, hS, rfl, rfl, rfl, rfl⟩

/-- Items whose region is invalid are skipped by the loop without touching
its state. -/
lemma price_loop_skip (bad : PriceItem) (hb : valid_region bad = false)
    (l1 l2 : List PriceItem) (acc : List ℚ) (t : Option String) :
    price_loop (l1 ++ bad :: l2) (acc, t) = price_loop (l1 ++ l2) (acc, t) := by
  induction l1 generalizing acc t with
  | nil => simp [price_loop, hb]
  | cons i rest ih =>
    by_cases hv : valid_region i <;>
      simp [price_loop, hv, ih]

/-- Removing an invalid-region item anywhere in the payload leaves
fetch_price unchanged. -/
lemma fetch_price_skip (td : Option ℤ) (zk : String) (l1 l2 : List PriceItem)
    (bad : PriceItem) (hb : valid_region bad = false) :
    fetch_price td (l1 ++ bad :: l2) zk = fetch_price td (l1 ++ l2) zk := by
  rw [fetch_price, fetch_price, price_loop_skip bad hb]

/-- The region filter is membership of grid_zone_id in the set 1..13. -/
lemma valid_region_iff (i : PriceItem) :
    valid_region i = true ↔ 1 ≤ i.grid_zone_id ∧ i.grid_zone_id ≤ 13 := by
  rw [valid_region, decide_eq_true_eq]
  constructor
  · intro hmem
    rw [NZ_PRICE_REGIONS, List.mem_map] at hmem
    obtain ⟨n, hn, he⟩ := hmem
    rw [List.mem_range] at hn
    omega
  · intro hb
    rw [NZ_PRICE_REGIONS, List.mem_map]
    refine ⟨(i.grid_zone_id - 1).toNat, ?_, ?_⟩
    · rw [List.mem_range]
      omega
    · omega

/-! ## Lemmas about fetch (extraction) -/

/-- If no script carries a truthy marker attribute, the loop leaves obj
untouched. -/
lemma fetch_loop_no_selector {α : Type} (loads : String → Option α)
    (l : List ScriptTag) (obj : Option α)
    (hf : l.filter has_selector = []) :
    fetch_loop loads l obj = .ok obj := by
  induction l with
  | nil => rfl
  | cons s rest ih =>
    rw [List.filter_cons] at hf
    by_cases hs : has_selector s
    · simp [hs] at hf
    · rw [fetch_loop, if_neg hs]
      exact ih (by simpa [hs] using hf)

/-- A successful loop run either saw no marked script (obj unchanged) or
ends with the parse of the first content string of the last marked
script. -/
lemma fetch_loop_ok {α : Type} (loads : String → Option α) :
    ∀ (l : List ScriptTag) (obj res : Option α),
      fetch_loop loads l obj = .ok res →
      (l.filter has_selector = [] ∧ res = obj) ∨
      (∃ s body j, (l.filter has_selector).getLast? = some s ∧
        s.contents.head? = some body ∧ loads body = some j ∧ res = some j) := by
  intro l
  induction l with
  | nil =>
    intro obj res h
    cases h
    exact Or.inl ⟨rfl, rfl⟩
  | cons s rest ih =>
    intro obj res h
    rw [fetch_loop] at h
    by_cases hs : has_selector s
    · rw [if_pos hs] at h
      cases hc : s.contents.head? with
      | none => rw [hc] at h; cases h
      | some body =>
        rw [hc] at h
        have h2 : (match loads body with
            | none => Except.error Err.jsonDecodeError
            | some j => fetch_loop loads rest (some j)) = Except.ok res := h
        cases hl : loads body with
        | none => rw [hl] at h2; cases h2
        | some j =>
          rw [hl] at h2
          rcases ih (some j) res h2 with ⟨hf, hres⟩ | ⟨s2, b2, j2, h1, h2, h3, h4⟩
          · refine Or.inr ⟨s, body, j, ?_, hc, hl, hres⟩
            simp [List.filter_cons, hs, hf]
          · refine Or.inr ⟨s2, b2, j2, ?_, h2, h3, h4⟩
            rw [List.filter_cons_of_pos hs, getLast_cons_or, h1]
            rfl
    · rw [if_neg hs] at h
      rcases ih obj res h with ⟨hf, hres⟩ | hex
      · exact Or.inl ⟨by simp [List.filter_cons, hs, hf], hres⟩
      · refine Or.inr ?_
        simpa [List.filter_cons, hs] using hex

/-! ## Claim theorems: extraction -/

/-- Claim C5: fetch returns the JSON parsed from the first content string
of the last script element in document order whose marker attribute
data-drupal-selector is present and truthy; when no script is marked, the
variable obj is never assigned and fetch fails with NameError, the
failure the spec names ExtractionError. -/
theorem fetch_last_marked_script {α : Type} (loads : String → Option α)
    (scripts : List ScriptTag) :
    (scripts.filter has_selector = [] →
      fetch loads scripts = .error Err.nameError) ∧
    (∀ j : α, fetch loads scripts = .ok j →
      ∃ s body, (scripts.filter has_selector).getLast? = some s ∧
        s.contents.head? = some body ∧ loads body = some j) := by
  constructor
  · intro hf
    rw [fetch, fetch_loop_no_selector loads scripts none hf]
  · intro j h
    rw [fetch] at h
    cases hl : fetch_loop loads scripts none with
    | error e => rw [hl] at h; cases h
    | ok o =>
      rw [hl] at h
      cases o with
      | none => cases h
      | some x =>
        injection h with hxj
        subst hxj
        rcases fetch_loop_ok loads scripts none (some x) hl with
          ⟨_, hres⟩ | ⟨s, body, j2, h1, h2, h3, h4⟩
        · cases hres
        · cases h4
          exact ⟨s, body, h1, h2, h3⟩

/-- Witness for C5: of three scripts, the first and third are marked; the
result is the parse of the third (last-wins), and an unmarked document
fails with NameError. -/
theorem fetch_last_marked_script_witness :
    fetch (fun s => if s = "A" then some 1 else if s = "B" then some 2 else none)
        ([] : List ScriptTag) = .error Err.nameError ∧
    (∃ s body,
      (([⟨[("data-drupal-selector", "x")], ["A"]⟩, ⟨[("type", "text/javascript")], ["noise"]⟩,
         ⟨[("data-drupal-selector", "y")], ["B"]⟩] : List ScriptTag).filter
            has_selector).getLast? = some s ∧
      s.contents.head? = some body ∧
      (if body = "A" then some 1 else if body = "B" then some 2 else none) = some 2) :=
  ⟨(fetch_last_marked_script _ []).1 rfl,
    (fetch_last_marked_script
      (fun s => if s = "A" then some 1 else if s = "B" then some 2 else none)
      [⟨[("data-drupal-selector", "x")], ["A"]⟩, ⟨[("type", "text/javascript")], ["noise"]⟩,
       ⟨[("data-drupal-selector", "y")], ["B"]⟩]).2 2 rfl⟩

/-! ## Claim theorems: price and timestamps -/

/-- Claim C1: the price of the record returned by fetch_price is the
unweighted arithmetic mean of the prices of exactly the samples whose
grid_zone_id lies in the valid-region set, that set is 1..13, and a
sample with a region id outside the set never influences the result. -/
theorem fetch_price_mean_valid_regions (items : List PriceItem) (zone_key : String) :
    (∀ i : PriceItem, valid_region i = true ↔ 1 ≤ i.grid_zone_id ∧ i.grid_zone_id ≤ 13) ∧
    (∀ r : PriceRecord, fetch_price none items zone_key = .ok r →
      r.price = ((items.filter valid_region).map PriceItem.price).sum /
        ((items.filter valid_region).length : ℚ)) ∧
    (∀ (td : Option ℤ) (l1 l2 : List PriceItem) (bad : PriceItem),
      valid_region bad = false →
      fetch_price td (l1 ++ bad :: l2) zone_key = fetch_price td (l1 ++ l2) zone_key) := by
  refine ⟨valid_region_iff, ?_, ?_⟩
  · intro r h
    obtain ⟨i, _, _, hp, _⟩ := fetch_price_ok_inv items zone_key r h
    exact hp
  · intro td l1 l2 bad hb
    exact fetch_price_skip td zone_key l1 l2 bad hb

/-- Witness for C1 at the spec scenario: two region-1 samples (prices 50
and 60) and one region-99 sample; the returned price is the mean of the
two valid samples, and dropping the region-99 sample changes nothing. -/
theorem fetch_price_mean_valid_regions_witness :
    (∃ r : PriceRecord,
      fetch_price none
        [⟨1, "2024-01-01T00:00:00Z", 50⟩, ⟨1, "2024-01-01T00:05:00Z", 60⟩,
         ⟨99, "2024-01-01T00:05:00Z", 999⟩] "NZ" = .ok r ∧
      r.price =
        (([⟨1, "2024-01-01T00:00:00Z", 50⟩, ⟨1, "2024-01-01T00:05:00Z", 60⟩,
           ⟨99, "2024-01-01T00:05:00Z", 999⟩] : List PriceItem).filter
              valid_region |>.map PriceItem.price).sum /
          ((([⟨1, "2024-01-01T00:00:00Z", 50⟩, ⟨1, "2024-01-01T00:05:00Z", 60⟩,
              ⟨99, "2024-01-01T00:05:00Z", 999⟩] : List PriceItem).filter
                valid_region).length : ℚ)) ∧
    fetch_price none
        ([⟨1, "2024-01-01T00:00:00Z", 50⟩, ⟨1, "2024-01-01T00:05:00Z", 60⟩] ++
          ⟨99, "2024-01-01T00:05:00Z", 999⟩ :: []) "NZ" =
      fetch_price none
        ([⟨1, "2024-01-01T00:00:00Z", 50⟩, ⟨1, "2024-01-01T00:05:00Z", 60⟩] ++ []) "NZ" :=
  ⟨⟨_, rfl, (fetch_price_mean_valid_regions _ "NZ").2.1 _ rfl⟩,
    (fetch_price_mean_valid_regions [] "NZ").2.2 none _ []
      ⟨99, "2024-01-01T00:05:00Z", 999⟩ (by decide)⟩

/-- Claim C2 (code evaluated at the failing input): with a payload whose
only sample has region id 99, no sample survives the filter and
fetch_price fails with the arithmetic ZeroDivisionError of
sum(region_prices) / len(region_prices), not with a named NoDataError
(no such failure exists anywhere in the code). -/
theorem fetch_price_empty_filter_zero_division :
    fetch_price none [⟨99, "2024-01-01T00:00:00Z", 999⟩] "NZ" =
      .error Err.zeroDivisionError := rfl

/-- Claim C4: the datetime of a successful fetch_price record is parsed
(by the exact ISO-8601 UTC format) from the timestamp of the last
valid-region sample in iteration order. -/
theorem fetch_price_datetime_last_valid (items : List PriceItem) (zone_key : String)
    (i : PriceItem)
    (hlast : (items.filter valid_region).getLast? = some i) :
    ∀ r : PriceRecord, fetch_price none items zone_key = .ok r →
      strptime_iso i.timestamp = some r.datetime := by
  intro r h
  obtain ⟨j, hj, hdt, _⟩ := fetch_price_ok_inv items zone_key r h
  rw [hlast] at hj
  cases hj
  exact hdt

/-- Witness for C4: the last valid sample in iteration order (region 2,
00:00:00) is chronologically earlier than the first one (00:05:00), yet
its timestamp is the one returned. -/
theorem fetch_price_datetime_last_valid_witness :
    ∃ r : PriceRecord,
      fetch_price none
        [⟨1, "2024-01-01T00:05:00Z", 60⟩, ⟨2, "2024-01-01T00:00:00Z", 50⟩,
         ⟨99, "2024-01-01T00:07:00Z", 1⟩] "NZ" = .ok r ∧
      strptime_iso "2024-01-01T00:00:00Z" = some r.datetime :=
  ⟨_, rfl,
    fetch_price_datetime_last_valid
      [⟨1, "2024-01-01T00:05:00Z", 60⟩, ⟨2, "2024-01-01T00:00:00Z", 50⟩,
       ⟨99, "2024-01-01T00:07:00Z", 1⟩] "NZ"
      ⟨2, "2024-01-01T00:00:00Z", 50⟩ rfl _ rfl⟩

/-- Claim C6: the ISO-8601 string variant on "2024-01-01T00:00:00Z" and
the epoch-seconds variant on 1704067200 denote the identical UTC
instant. -/
theorem strptime_fromtimestamp_same_instant :
    strptime_iso "2024-01-01T00:00:00Z" = some (datetime_fromtimestamp 1704067200) := by
  decide

/-- Claim C7 counterexample: "2024-1-01T00:00:00Z" deviates from the
exact shape YYYY-MM-DDTHH:MM:SSZ (single-digit month), yet strptime
accepts it, because CPython compiles %m to the regex 1[0-2]|0[1-9]|[1-9],
which also matches one digit; the exact format is therefore looser than
claimed and the call does not fail. -/
theorem strptime_single_digit_month_accepted :
    strptime_iso "2024-1-01T00:00:00Z" = some 1704067200 := by
  decide

/-- Claim C7 amended: structural deviations from the format - a space
instead of the T separator with no trailing Z, fractional seconds, a
numeric UTC offset, trailing characters - fail with the strptime
ValueError (the spec's TimestampFormatError), while digit-count and
letter-case deviations (single-digit fields, lowercase t/z) are accepted. -/
theorem strptime_structural_deviations_fail :
    strptime_iso "2024-01-01 00:00:00" = none ∧
    strptime_iso "2024-01-01T00:00:00.123Z" = none ∧
    strptime_iso "2024-01-01T00:00:00+00:00" = none ∧
    strptime_iso "2024-01-01T00:00:00ZX" = none ∧
    strptime_iso "2024-01-01t00:00:00z" = some 1704067200 := by
  refine ⟨by decide, by decide, by decide, by decide, by decide⟩

/-- Claim C9: a non-None target_datetime (datetime objects are always
truthy) makes both fetch_price and fetch_production fail immediately with
NotImplementedError (the spec's UnsupportedOperationError), whatever the
payload is. -/
theorem target_datetime_unsupported (td : ℤ) (items : List PriceItem)
    (obj : SoPgenGraph) (zone_key : String) :
    fetch_price (some td) items zone_key = .error Err.notImplementedError ∧
    fetch_production (some td) obj zone_key = .error Err.notImplementedError :=
  ⟨rfl, rfl⟩

/-! ## Lemmas about fetch_production -/

/-- Inversion of a successful Except bind. -/
lemma bind_ok_inv {ε σ τ : Type} {act : Except ε σ} {next : σ → Except ε τ}
    {out : τ} (h : act >>= next = .ok out) :
    ∃ a, act = .ok a ∧ next a = .ok out := by
  cases act with
  | ok a => exact ⟨a, rfl, h⟩
  | error e =>
    have himp : (Except.error e : Except ε τ) = Except.ok out := h
    cases himp

/-- When the provider category is absent, the .get default makes the
looked-up field exactly the null sentinel, for any field name. -/
lemma prod_field_absent (productions : RegionData) (cat fld : String)
    (h : dict_get productions cat = none) :
    prod_field productions cat fld = .ok JVal.null := by
  rw [prod_field, h]
  simp [dict_index, dict_get]

/-- Inversion of a successful fetch_production run: every provider-category
field lookup succeeded, and the returned record is the literal dict of
lines 131-165 built from those values. -/
lemma fetch_production_ok_inv (obj : SoPgenGraph) (zk : String) (r : ProductionData)
    (h : fetch_production none obj zk = .ok r) :
    ∃ productions coal_g oil_g gas_g geothermal_g wind_g hydro_g solar_g cogen_g
      coal_c oil_c gas_c geothermal_c wind_c hydro_c solar_c battery_c cogen_c
      battery_g,
      dict_index obj.data "New Zealand" = .ok productions ∧
      prod_field productions "Coal" "generation" = .ok coal_g ∧
      prod_field productions "Diesel/Oil" "generation" = .ok oil_g ∧
      prod_field productions "Gas" "generation" = .ok gas_g ∧
      prod_field productions "Geothermal" "generation" = .ok geothermal_g ∧
      prod_field productions "Wind" "generation" = .ok wind_g ∧
      prod_field productions "Hydro" "generation" = .ok hydro_g ∧
      prod_field productions "Solar" "generation" = .ok solar_g ∧
      prod_field productions "Co-Gen" "generation" = .ok cogen_g ∧
      prod_field productions "Coal" "capacity" = .ok coal_c ∧
      prod_field productions "Diesel/Oil" "capacity" = .ok oil_c ∧
      prod_field productions "Gas" "capacity" = .ok gas_c ∧
      prod_field productions "Geothermal" "capacity" = .ok geothermal_c ∧
      prod_field productions "Wind" "capacity" = .ok wind_c ∧
      prod_field productions "Hydro" "capacity" = .ok hydro_c ∧
      prod_field productions "Solar" "capacity" = .ok solar_c ∧
      prod_field productions "Battery" "capacity" = .ok battery_c ∧
      prod_field productions "Co-Gen" "capacity" = .ok cogen_c ∧
      prod_field productions "Battery" "generation" = .ok battery_g ∧
      r = { zoneKey := zk
            datetime := datetime_fromtimestamp obj.timestamp
            production :=
              [("coal", coal_g), ("oil", oil_g), ("gas", gas_g),
               ("geothermal", geothermal_g), ("wind", wind_g),
               ("hydro", hydro_g), ("solar", solar_g), ("unknown", cogen_g),
               ("nuclear", JVal.num 0)]
            capacity :=
              [("coal", coal_c), ("oil", oil_c), ("gas", gas_c),
               ("geothermal", geothermal_c), ("wind", wind_c),
               ("hydro", hydro_c), ("solar", solar_c),
               ("battery storage", battery_c), ("unknown", cogen_c),
               ("nuclear", JVal.num 0)]
            storage := [("battery", battery_g)]
            source := "transpower.co.nz" } := by
  rw [fetch_production] at h
  simp only [Option.isSome_none, Bool.false_eq_true, if_false] at h
  obtain ⟨productions, hnz, h⟩ := bind_ok_inv h
  obtain ⟨coal_g, hcoalg, h⟩ := bind_ok_inv h
  obtain ⟨oil_g, hoilg, h⟩ := bind_ok_inv h
  obtain ⟨gas_g, hgasg, h⟩ := bind_ok_inv h
  obtain ⟨geothermal_g, hgeog, h⟩ := bind_ok_inv h
  obtain ⟨wind_g, hwindg, h⟩ := bind_ok_inv h
  obtain ⟨hydro_g, hhydg, h⟩ := bind_ok_inv h
  obtain ⟨solar_g, hsolg, h⟩ := bind_ok_inv h
  obtain ⟨cogen_g, hcogg, h⟩ := bind_ok_inv h
  obtain ⟨coal_c, hcoalc, h⟩ := bind_ok_inv h
  obtain ⟨oil_c, hoilc, h⟩ := bind_ok_inv h
  obtain ⟨gas_c, hgasc, h⟩ := bind_ok_inv h
  obtain ⟨geothermal_c, hgeoc, h⟩ := bind_ok_inv h
  obtain ⟨wind_c, hwindc, h⟩ := bind_ok_inv h
  obtain ⟨hydro_c, hhydc, h⟩ := bind_ok_inv h
  obtain ⟨solar_c, hsolc, h⟩ := bind_ok_inv h
  obtain ⟨battery_c, hbatc, h⟩ := bind_ok_inv h
  obtain ⟨cogen_c, hcogc, h⟩ := bind_ok_inv h
  obtain ⟨battery_g, hbatg, h⟩ := bind_ok_inv h
  have hfin : Except.ok (ε := Err)
      { zoneKey := zk
        datetime := datetime_fromtimestamp obj.timestamp
        production :=
          [("coal", coal_g), ("oil", oil_g), ("gas", gas_g),
           ("geothermal", geothermal_g), ("wind", wind_g),
           ("hydro", hydro_g), ("solar", solar_g), ("unknown", cogen_g),
           ("nuclear", JVal.num 0)]
        capacity :=
          [("coal", coal_c), ("oil", oil_c), ("gas", gas_c),
           ("geothermal", geothermal_c), ("wind", wind_c),
           ("hydro", hydro_c), ("solar", solar_c),
           ("battery storage", battery_c), ("unknown", cogen_c),
           ("nuclear", JVal.num 0)]
        storage := [("battery", battery_g)]
        source := "transpower.co.nz" } = Except.ok r := h
  injection hfin with hfin
  exact ⟨productions, coal_g, oil_g, gas_g, geothermal_g, wind_g, hydro_g,
    solar_g, cogen_g, coal_c, oil_c, gas_c, geothermal_c, wind_c, hydro_c,
    solar_c, battery_c, cogen_c, battery_g, hnz, hcoalg, hoilg, hgasg, hgeog,
    hwindg, hhydg, hsolg, hcogg, hcoalc, hoilc, hgasc, hgeoc, hwindc, hhydc,
    hsolc, hbatc, hcogc, hbatg, hfin.symm⟩

/-! ## Claim theorems: production -/

/-- Claim C3: for every output category whose provider category name is
absent from the region's mapping, the corresponding output field is the
null sentinel - present in the output and equal to null, not zero - in
production and, independently, in capacity. -/
theorem fetch_production_absent_is_null (obj : SoPgenGraph) (zone_key : String)
    (r : ProductionData) (productions : RegionData) (out cat : String)
    (h : fetch_production none obj zone_key = .ok r)
    (hprods : dict_index obj.data "New Zealand" = .ok productions)
    (habsent : dict_get productions cat = none) :
    ((out, cat) ∈ production_categories →
      dict_get r.production out = some JVal.null) ∧
    ((out, cat) ∈ capacity_categories →
      dict_get r.capacity out = some JVal.null) := by
  obtain ⟨p, coal_g, oil_g, gas_g, geothermal_g, wind_g, hydro_g, solar_g,
    cogen_g, coal_c, oil_c, gas_c, geothermal_c, wind_c, hydro_c, solar_c,
    battery_c, cogen_c, battery_g, hnz, hcoalg, hoilg, hgasg, hgeog, hwindg,
    hhydg, hsolg, hcogg, hcoalc, hoilc, hgasc, hgeoc, hwindc, hhydc, hsolc,
    hbatc, hcogc, hbatg, hrec⟩ :=
    fetch_production_ok_inv obj zone_key r h
  rw [hprods] at hnz
  injection hnz with hnz
  subst hnz
  subst hrec
  have habs : ∀ fld, prod_field productions cat fld = .ok JVal.null :=
    fun fld => prod_field_absent productions cat fld habsent
  constructor
  · intro hmem
    simp only [production_categories, List.mem_cons, Prod.mk.injEq,
      List.not_mem_nil, or_false] at hmem
    rcases hmem with hoc | hoc | hoc | hoc | hoc | hoc | hoc | hoc <;>
      obtain ⟨rfl, rfl⟩ := hoc
    · obtain rfl := Except.ok.inj ((habs "generation").symm.trans hcoalg); rfl
    · obtain rfl := Except.ok.inj ((habs "generation").symm.trans hoilg); rfl
    · obtain rfl := Except.ok.inj ((habs "generation").symm.trans hgasg); rfl
    · obtain rfl := Except.ok.inj ((habs "generation").symm.trans hgeog); rfl
    · obtain rfl := Except.ok.inj ((habs "generation").symm.trans hwindg); rfl
    · obtain rfl := Except.ok.inj ((habs "generation").symm.trans hhydg); rfl
    · obtain rfl := Except.ok.inj ((habs "generation").symm.trans hsolg); rfl
    · obtain rfl := Except.ok.inj ((habs "generation").symm.trans hcogg); rfl
  · intro hmem
    simp only [capacity_categories, production_categories, List.mem_append,
      List.mem_cons, Prod.mk.injEq, List.not_mem_nil, or_false] at hmem
    rcases hmem with (hoc | hoc | hoc | hoc | hoc | hoc | hoc | hoc) | hoc <;>
      obtain ⟨rfl, rfl⟩ := hoc
    · obtain rfl := Except.ok.inj ((habs "capacity").symm.trans hcoalc); rfl
    · obtain rfl := Except.ok.inj ((habs "capacity").symm.trans hoilc); rfl
    · obtain rfl := Except.ok.inj ((habs "capacity").symm.trans hgasc); rfl
    · obtain rfl := Except.ok.inj ((habs "capacity").symm.trans hgeoc); rfl
    · obtain rfl := Except.ok.inj ((habs "capacity").symm.trans hwindc); rfl
    · obtain rfl := Except.ok.inj ((habs "capacity").symm.trans hhydc); rfl
    · obtain rfl := Except.ok.inj ((habs "capacity").symm.trans hsolc); rfl
    · obtain rfl := Except.ok.inj ((habs "capacity").symm.trans hcogc); rfl
    · obtain rfl := Except.ok.inj ((habs "capacity").symm.trans hbatc); rfl

/-- Witness for C3 at the spec scenario: the region mapping has only a
Hydro entry and no Coal key, so both the production and the capacity
output bind coal to the null sentinel. -/
theorem fetch_production_absent_is_null_witness :
    ∃ r : ProductionData,
      fetch_production none
        ⟨1704067200,
         [("New Zealand",
           [("Hydro", [("generation", JVal.num 1200), ("capacity", JVal.num 1500)])])]⟩
        "NZ" = .ok r ∧
      dict_get r.production "coal" = some JVal.null ∧
      dict_get r.capacity "coal" = some JVal.null :=
  ⟨_, rfl,
    (fetch_production_absent_is_null
      ⟨1704067200,
       [("New Zealand",
         [("Hydro", [("generation", JVal.num 1200), ("capacity", JVal.num 1500)])])]⟩
      "NZ" _ [("Hydro", [("generation", JVal.num 1200), ("capacity", JVal.num 1500)])]
      "coal" "Coal" rfl rfl rfl).1 (by decide),
    (fetch_production_absent_is_null
      ⟨1704067200,
       [("New Zealand",
         [("Hydro", [("generation", JVal.num 1200), ("capacity", JVal.num 1500)])])]⟩
      "NZ" _ [("Hydro", [("generation", JVal.num 1200), ("capacity", JVal.num 1500)])]
      "coal" "Coal" rfl rfl rfl).2 (by decide)⟩

/-- Claim C8: the nuclear entry of both the production and the capacity
mapping of every successfully returned record is exactly 0, whatever the
payload contains. -/
theorem fetch_production_nuclear_zero (obj : SoPgenGraph) (zone_key : String)
    (r : ProductionData) (h : fetch_production none obj zone_key = .ok r) :
    dict_get r.production "nuclear" = some (JVal.num 0) ∧
    dict_get r.capacity "nuclear" = some (JVal.num 0) := by
  obtain ⟨p, coal_g, oil_g, gas_g, geothermal_g, wind_g, hydro_g, solar_g,
    cogen_g, coal_c, oil_c, gas_c, geothermal_c, wind_c, hydro_c, solar_c,
    battery_c, cogen_c, battery_g, hnz, hcoalg, hoilg, hgasg, hgeog, hwindg,
    hhydg, hsolg, hcogg, hcoalc, hoilc, hgasc, hgeoc, hwindc, hhydc, hsolc,
    hbatc, hcogc, hbatg, hrec⟩ :=
    fetch_production_ok_inv obj zone_key r h
  subst hrec
  exact ⟨rfl, rfl⟩

/-- Witness for C8 on a payload that even carries a Nuclear provider
entry: the output nuclear figures are still the constant 0. -/
theorem fetch_production_nuclear_zero_witness :
    ∃ r : ProductionData,
      fetch_production none
        ⟨1704067200,
         [("New Zealand",
           [("Nuclear", [("generation", JVal.num 500), ("capacity", JVal.num 700)])])]⟩
        "NZ" = .ok r ∧
      dict_get r.production "nuclear" = some (JVal.num 0) ∧
      dict_get r.capacity "nuclear" = some (JVal.num 0) :=
  ⟨_, rfl,
    fetch_production_nuclear_zero
      ⟨1704067200,
       [("New Zealand",
         [("Nuclear", [("generation", JVal.num 500), ("capacity", JVal.num 700)])])]⟩
      "NZ" _ rfl⟩

/-- Claim C10: the key sets of a successfully returned record are fixed
and independent of the payload: the nine production keys, those plus
battery storage for capacity, and battery alone for storage; no provider
category name ever appears in the output. -/
theorem fetch_production_fixed_keys (obj : SoPgenGraph) (zone_key : String)
    (r : ProductionData) (h : fetch_production none obj zone_key = .ok r) :
    r.production.map Prod.fst =
      ["coal", "oil", "gas", "geothermal", "wind", "hydro", "solar",
       "unknown", "nuclear"] ∧
    r.capacity.map Prod.fst =
      ["coal", "oil", "gas", "geothermal", "wind", "hydro", "solar",
       "battery storage", "unknown", "nuclear"] ∧
    r.storage.map Prod.fst = ["battery"] := by
  obtain ⟨p, coal_g, oil_g, gas_g, geothermal_g, wind_g, hydro_g, solar_g,
    cogen_g, coal_c, oil_c, gas_c, geothermal_c, wind_c, hydro_c, solar_c,
    battery_c, cogen_c, battery_g, hnz, hcoalg, hoilg, hgasg, hgeog, hwindg,
    hhydg, hsolg, hcogg, hcoalc, hoilc, hgasc, hgeoc, hwindc, hhydc, hsolc,
    hbatc, hcogc, hbatg, hrec⟩ :=
    fetch_production_ok_inv obj zone_key r h
  subst hrec
  exact ⟨rfl, rfl, rfl⟩

/-- Witness for C10: on the Hydro-only payload, the returned record has
exactly the fixed key lists. -/
theorem fetch_production_fixed_keys_witness :
    ∃ r : ProductionData,
      fetch_production none
        ⟨1704067200,
         [("New Zealand",
           [("Hydro", [("generation", JVal.num 1200), ("capacity", JVal.num 1500)])])]⟩
        "NZ" = .ok r ∧
      (r.production.map Prod.fst =
        ["coal", "oil", "gas", "geothermal", "wind", "hydro", "solar",
         "unknown", "nuclear"] ∧
      r.capacity.map Prod.fst =
        ["coal", "oil", "gas", "geothermal", "wind", "hydro", "solar",
         "battery storage", "unknown", "nuclear"] ∧
      r.storage.map Prod.fst = ["battery"]) :=
  ⟨_, rfl,
    fetch_production_fixed_keys
      ⟨1704067200,
       [("New Zealand",
         [("Hydro", [("generation", JVal.num 1200), ("capacity", JVal.num 1500)])])]⟩
      "NZ" _ rfl⟩

end NZ
